import Mathlib

/-!
Shallow embedding of the vehicle-routing scoring core:
`constraints.py` (constraint rules and configuration flags) and
`demo_data.py` (dataset validation and the synthetic instance generator).

The repository imports a `domain` module that is not part of the sources;
the derived entity state it provides (total demand, service-finish times,
total driving time) is modelled from the specification, marked
`Modelled from the spec:` on each definition.
-/

set_option maxRecDepth 8000
set_option maxHeartbeats 1000000

/-- View of `Except` as a sum, giving decidable equality for evaluating
validation results. -/
def exceptToSum : Except ε α → ε ⊕ α
  | .error e => Sum.inl e
  | .ok a => Sum.inr a

instance [DecidableEq ε] [DecidableEq α] : DecidableEq (Except ε α) :=
  fun x y =>
    decidable_of_iff (exceptToSum x = exceptToSum y)
      ⟨fun h => by
          cases x <;> cases y <;> simp only [exceptToSum] at h <;> simp_all,
        fun h => by rw [h]⟩

namespace VehicleRouting

/-- Two-tier score pair `(hard, soft)`, as `HardSoftScore` in the source. -/
structure HardSoftScore where
  hard : Int
  soft : Int
deriving DecidableEq, Repr

/-- `HardSoftScore.of(h, s)` from the source. -/
def HardSoftScore.of (h s : Int) : HardSoftScore := ⟨h, s⟩

/-- Componentwise addition of score pairs. -/
def HardSoftScore.add (a b : HardSoftScore) : HardSoftScore :=
  ⟨a.hard + b.hard, a.soft + b.soft⟩

instance : Add HardSoftScore := ⟨HardSoftScore.add⟩

/-- Sum of a list of score contributions. -/
def scoreSum (l : List HardSoftScore) : HardSoftScore :=
  l.foldr (· + ·) ⟨0, 0⟩

/-- `penalize(weight, match_weigher)`: one match of magnitude `m` under
weight `w` contributes `w * m` on each tier. -/
def penalizeBy (w : HardSoftScore) (m : Int) : HardSoftScore :=
  ⟨w.hard * m, w.soft * m⟩

/-- Latitude/longitude pair (`Location`). Coordinates are modelled as
rationals. -/
structure Location where
  latitude : Rat
  longitude : Rat
deriving DecidableEq, Repr

instance : Inhabited Location := ⟨⟨0, 0⟩⟩

/-- A `datetime`: a day index and a minute-of-day.
`time` values are modelled as minutes after midnight. -/
structure DateTime where
  day : Nat
  minuteOfDay : Nat
deriving DecidableEq, Repr

/-- Total minutes represented by a `DateTime`, used for comparisons. -/
def DateTime.toMinutes (d : DateTime) : Nat := d.day * 1440 + d.minuteOfDay

/-- Adding a `timedelta` of `m` minutes to a `datetime`. -/
def DateTime.addMinutes (d : DateTime) (m : Nat) : DateTime :=
  ⟨d.day + (d.minuteOfDay + m) / 1440, (d.minuteOfDay + m) % 1440⟩

/-- `Visit` entity: static attributes from the generator plus the
solver-assigned arrival time (shadow variable, `none` while unassigned). -/
structure Visit where
  id : String
  name : String
  location : Location
  demand : Int
  min_start_time : DateTime
  max_end_time : DateTime
  /-- service duration in minutes -/
  service_duration : Nat
  arrival_time : Option DateTime := none
deriving DecidableEq, Repr

/-- `Vehicle` entity: attributes from the generator plus the
solver-managed ordered visit list. -/
structure Vehicle where
  id : String
  capacity : Int
  home_location : Location
  departure_time : DateTime
  visits : List Visit := []
deriving DecidableEq, Repr

/-- Modelled from the spec: `Vehicle.calculate_total_demand` (the
`domain` module is not in the sources) — "total demand (sum of assigned
visits' demand)". -/
def Vehicle.calculate_total_demand (v : Vehicle) : Int :=
  (v.visits.map Visit.demand).sum

/-- Modelled from the spec: a visit's service-start time — the vehicle
waits if it arrives before the window opens, so service starts at
`max(arrival, min_start_time)`; undefined while unassigned. -/
def Visit.service_start_time (v : Visit) : Option DateTime :=
  v.arrival_time.map (fun a =>
    if a.toMinutes < v.min_start_time.toMinutes then v.min_start_time else a)

/-- Modelled from the spec: service-finish time = service start plus the
service duration. -/
def Visit.service_finish_time (v : Visit) : Option DateTime :=
  v.service_start_time.map (fun st => st.addMinutes v.service_duration)

/-- Modelled from the spec: `Visit.is_service_finished_after_max_end_time`
— the computed service-finish time is later than the max end time. -/
def Visit.is_service_finished_after_max_end_time (v : Visit) : Bool :=
  match v.service_finish_time with
  | none => false
  | some f => v.max_end_time.toMinutes < f.toMinutes

/-- Modelled from the spec: `Visit.service_finished_delay_in_minutes` —
the finish delay in whole minutes. -/
def Visit.service_finished_delay_in_minutes (v : Visit) : Int :=
  match v.service_finish_time with
  | none => 0
  | some f => (f.toMinutes : Int) - (v.max_end_time.toMinutes : Int)

/-- Modelled from the spec: total driving time, the sum of inter-stop
travel durations along `home → visit₁ → … → visitₙ`, given a driving-time
function between locations (an opaque external dependency). -/
def drivingTimeFrom (drv : Location → Location → Nat) :
    Location → List Visit → Nat
  | _, [] => 0
  | cur, x :: xs => drv cur x.location + drivingTimeFrom drv x.location xs

/-- Modelled from the spec: `Vehicle.total_driving_time_seconds`. -/
def Vehicle.total_driving_time_seconds
    (drv : Location → Location → Nat) (v : Vehicle) : Nat :=
  drivingTimeFrom drv v.home_location v.visits

/-! ## Constraint rules (`constraints.py`) -/

def VEHICLE_CAPACITY : String := "vehicleCapacity"
def MINIMIZE_TRAVEL_TIME : String := "minimizeTravelTime"
def SERVICE_FINISHED_AFTER_MAX_END_TIME : String := "serviceFinishedAfterMaxEndTime"
def BALANCE_LOAD : String := "balanceLoad"
def LIMIT_DRIVING_TIME : String := "limitDrivingTime"
def MINIMIZE_MAX_LOAD : String := "minimizeMaxLoad"
def ENCOURAGE_FULL_UTILIZATION : String := "encourageFullUtilization"
def MINIMIZE_VEHICLE_COUNT : String := "minimizeVehicleCount"

def ENABLE_TIME_WINDOW_CONSTRAINTS : Bool := true
def ENABLE_LOAD_BALANCING : Bool := false
def ENABLE_DRIVING_TIME_LIMIT : Bool := false
def ENABLE_MINIMIZE_MAX_LOAD : Bool := false
def ENABLE_ENCOURAGE_FULL_UTILIZATION : Bool := false
def ENABLE_MINIMIZE_VEHICLE_COUNT : Bool := true

/-- Driving time limit in seconds (3 hours). -/
def DRIVING_TIME_LIMIT_SECONDS : Nat := 3 * 60 * 60

def MAX_LOAD_PER_VEHICLE : Int := 15
def MIN_LOAD_THRESHOLD : Int := 5

/-- `vehicle_capacity`: filter `total demand > capacity`, penalize
`HardSoftScore.of(1, 0)` by `total demand - capacity`. The value is this
vehicle's contribution (zero when the filter rejects it). -/
def vehicle_capacity (v : Vehicle) : HardSoftScore :=
  if v.capacity < v.calculate_total_demand then
    penalizeBy (HardSoftScore.of 1 0) (v.calculate_total_demand - v.capacity)
  else ⟨0, 0⟩

/-- `service_finished_after_max_end_time`: filter on the finished-late
predicate, penalize `HardSoftScore.of(1, 0)` by the delay in minutes. -/
def service_finished_after_max_end_time (v : Visit) : HardSoftScore :=
  if v.is_service_finished_after_max_end_time then
    penalizeBy (HardSoftScore.of 1 0) v.service_finished_delay_in_minutes
  else ⟨0, 0⟩

/-- `limit_driving_time`: filter `total driving time > DRIVING_TIME_LIMIT_SECONDS`,
penalize `HardSoftScore.of(1, 0)` by the seconds over the ceiling. -/
def limit_driving_time (drv : Location → Location → Nat) (v : Vehicle) :
    HardSoftScore :=
  if DRIVING_TIME_LIMIT_SECONDS < v.total_driving_time_seconds drv then
    penalizeBy (HardSoftScore.of 1 0)
      ((v.total_driving_time_seconds drv : Int) - (DRIVING_TIME_LIMIT_SECONDS : Int))
  else ⟨0, 0⟩

/-- `minimize_vehicle_count`: filter `len(vehicle.visits) > 0`, penalize
`HardSoftScore.of(0, 20)` with the default match weight 1. -/
def minimize_vehicle_count (v : Vehicle) : HardSoftScore :=
  if 0 < v.visits.length then penalizeBy (HardSoftScore.of 0 20) 1
  else ⟨0, 0⟩

/-- Total `minimize_vehicle_count` contribution of a plan's vehicle list:
the sum of one weighted match per vehicle passing the filter. -/
def minimize_vehicle_count_total (vehicles : List Vehicle) : HardSoftScore :=
  scoreSum ((vehicles.filter (fun v => 0 < v.visits.length)).map
    (fun _ => penalizeBy (HardSoftScore.of 0 20) 1))

/-- The six configuration flags read by `define_constraints`. -/
structure Config where
  enable_time_window_constraints : Bool
  enable_load_balancing : Bool
  enable_driving_time_limit : Bool
  enable_minimize_max_load : Bool
  enable_encourage_full_utilization : Bool
  enable_minimize_vehicle_count : Bool

/-- `define_constraints`, with the module-level flags made an explicit
argument; returns the constraint identifiers in registration order. -/
def defineConstraintsFlags (cfg : Config) : List String :=
  let cs := [VEHICLE_CAPACITY]
  let cs := if cfg.enable_time_window_constraints
    then cs ++ [SERVICE_FINISHED_AFTER_MAX_END_TIME] else cs
  let cs := if cfg.enable_driving_time_limit
    then cs ++ [LIMIT_DRIVING_TIME] else cs
  let cs := cs ++ [MINIMIZE_TRAVEL_TIME]
  let cs := if cfg.enable_load_balancing then cs ++ [BALANCE_LOAD] else cs
  let cs := if cfg.enable_minimize_max_load then cs ++ [MINIMIZE_MAX_LOAD] else cs
  let cs := if cfg.enable_encourage_full_utilization
    then cs ++ [ENCOURAGE_FULL_UTILIZATION] else cs
  let cs := if cfg.enable_minimize_vehicle_count
    then cs ++ [MINIMIZE_VEHICLE_COUNT] else cs
  cs

/-- The flag values as set at module level in the source. -/
def sourceConfig : Config :=
  ⟨ENABLE_TIME_WINDOW_CONSTRAINTS, ENABLE_LOAD_BALANCING,
   ENABLE_DRIVING_TIME_LIMIT, ENABLE_MINIMIZE_MAX_LOAD,
   ENABLE_ENCOURAGE_FULL_UTILIZATION, ENABLE_MINIMIZE_VEHICLE_COUNT⟩

/-- `define_constraints` as shipped: the flag-driven list at the source's
flag values. -/
def define_constraints : List String := defineConstraintsFlags sourceConfig

/-! ## Demo data (`demo_data.py`) -/

def FIRST_NAMES : List String :=
  ["Amy", "Beth", "Chad", "Dan", "Elsa", "Flo", "Gus", "Hugo", "Ivy", "Jay"]

def LAST_NAMES : List String :=
  ["Cole", "Fox", "Green", "Jones", "King", "Li", "Poe", "Rye", "Smith", "Watt"]

def SERVICE_DURATION_MINUTES : List Nat := [10, 20, 30, 40]

/-- `time(8, 0)` as minutes after midnight. -/
def MORNING_WINDOW_START : Nat := 8 * 60

/-- `time(12, 0)`. -/
def MORNING_WINDOW_END : Nat := 12 * 60

/-- `time(13, 0)`. -/
def AFTERNOON_WINDOW_START : Nat := 13 * 60

/-- `time(18, 0)`. -/
def AFTERNOON_WINDOW_END : Nat := 18 * 60

/-- The fixed warehouse location. -/
def WAREHOUSE_LOCATION : Location :=
  ⟨47.57900943093803, 5.576702063852337⟩

/-- `_DemoDataProperties` dataclass fields. `vehicle_start_time` is the
`time` value in minutes after midnight; counts stay integers as in the
source. -/
structure _DemoDataProperties where
  seed : Int
  visit_count : Int
  vehicle_count : Int
  vehicle_start_time : Nat
  min_demand : Int
  max_demand : Int
  min_vehicle_capacity : Int
  max_vehicle_capacity : Int
  south_west_corner : Location
  north_east_corner : Location
deriving DecidableEq, Repr

/-- `_DemoDataProperties.__post_init__`: the validation chain, in source
order; each failing condition raises a `ValueError` with the message shown. -/
def post_init_check (p : _DemoDataProperties) : Except String Unit :=
  if p.min_demand < 1 then
    .error s!"minDemand ({p.min_demand}) must be greater than zero."
  else if p.max_demand < 1 then
    .error s!"maxDemand ({p.max_demand}) must be greater than zero."
  else if p.max_demand ≤ p.min_demand then
    .error s!"maxDemand ({p.max_demand}) must be greater than minDemand ({p.min_demand})."
  else if p.min_vehicle_capacity < 1 then
    .error s!"Number of minVehicleCapacity ({p.min_vehicle_capacity}) must be greater than zero."
  else if p.max_vehicle_capacity < 1 then
    .error s!"Number of maxVehicleCapacity ({p.max_vehicle_capacity}) must be greater than zero."
  else if p.max_vehicle_capacity ≤ p.min_vehicle_capacity then
    .error s!"maxVehicleCapacity ({p.max_vehicle_capacity}) must be greater than minVehicleCapacity ({p.min_vehicle_capacity})."
  else if p.visit_count < 1 then
    .error s!"Number of visitCount ({p.visit_count}) must be greater than zero."
  else if p.vehicle_count < 1 then
    .error s!"Number of vehicleCount ({p.vehicle_count}) must be greater than zero."
  else if p.north_east_corner.latitude ≤ p.south_west_corner.latitude then
    .error "northEastCorner.getLatitude must be greater than southWestCorner.getLatitude."
  else if p.north_east_corner.longitude ≤ p.south_west_corner.longitude then
    .error "northEastCorner.getLongitude must be greater than southWestCorner.getLongitude."
  else .ok ()

/-- Constructing a `_DemoDataProperties`: the dataclass runs
`__post_init__` before any value becomes usable, so construction yields
either the validated record or the raised error. -/
def mkDemoDataProperties (p : _DemoDataProperties) :
    Except String _DemoDataProperties :=
  match post_init_check p with
  | .error e => .error e
  | .ok _ => .ok p

/-- The `DemoData.NEW_LOCATION` dataset (`time(7, 30)` = 450 minutes). -/
def NEW_LOCATION : _DemoDataProperties where
  seed := 0
  visit_count := 200
  vehicle_count := 50
  vehicle_start_time := 450
  min_demand := 2
  max_demand := 4
  min_vehicle_capacity := 10
  max_vehicle_capacity := 15
  south_west_corner := ⟨47.57900943093803 - 0.675, 5.576702063852337 - 0.675⟩
  north_east_corner := ⟨47.57900943093803 + 0.675, 5.576702063852337 + 0.675⟩

/-- The `DemoData` enum catalogue, in declaration order. -/
def demoDataCatalogue : List _DemoDataProperties := [NEW_LOCATION]

/-! ### Random number generation

`Random(seed)` is Python standard-library code, outside the repository.
The spec requires only that it be a deterministic generator fixed by the
seed whose draws respect the documented ranges. -/

/-- Modelled from the spec: the seeded PRNG (`random.Random`), as a
linear congruential generator on a state below `2^31`; each draw advances
the state deterministically. -/
def rngNext (s : Nat) : Nat := (s * 1103515245 + 12345) % 2147483648

/-- Modelled from the spec: `Random(seed)` — the initial state determined
by the seed. -/
def rngOfSeed (seed : Int) : Nat := seed.natAbs % 2147483648

/-- One raw draw below `n` (`Random._randbelow`). -/
def randbelow (n : Nat) (s : Nat) : Nat × Nat :=
  let t := rngNext s
  (t % n, t)

/-- `random.randrange(a, b)`: an integer in `[a, b)` (for `a < b`). -/
def randrange (a b : Int) (s : Nat) : Int × Nat :=
  let (k, t) := randbelow (b - a).toNat s
  (a + (k : Int), t)

/-- `random.randint(a, b)` = `randrange(a, b + 1)`. -/
def randint (a b : Int) (s : Nat) : Int × Nat := randrange a (b + 1) s

/-- `random.random()`: a fraction in `[0, 1)`. -/
def randfloat (s : Nat) : Rat × Nat :=
  let t := rngNext s
  ((t : Rat) / 2147483648, t)

/-- `random.uniform(a, b)` = `a + (b - a) * random()`. -/
def uniformDraw (a b : Rat) (s : Nat) : Rat × Nat :=
  let (f, t) := randfloat s
  (a + (b - a) * f, t)

/-- `random.choice(seq)`: a uniformly drawn element (callers pass
non-empty sequences; the default is never reached then). -/
def choiceDraw [Inhabited α] (xs : List α) (s : Nat) : α × Nat :=
  let (k, t) := randbelow xs.length s
  (xs.getD k default, t)

/-- The `values` generator: `sequence[random.randint(0, len - 1)]`. -/
def valuesDraw [Inhabited α] (xs : List α) (s : Nat) : α × Nat :=
  let (k, t) := randint 0 ((xs.length : Int) - 1) s
  (xs.getD k.toNat default, t)

/-- The `generate_names` generator:
`f'{random.choice(FIRST_NAMES)} {random.choice(LAST_NAMES)}'`. -/
def nameDraw (s : Nat) : String × Nat :=
  let (f, s1) := choiceDraw FIRST_NAMES s
  let (l, s2) := choiceDraw LAST_NAMES s1
  (f ++ " " ++ l, s2)

/-- `random_location()`: choose one of the catalogue rectangles, then draw
latitude and longitude uniformly inside it. -/
def randomLocation (allRanges : List (Location × Location)) (s : Nat) :
    Location × Nat :=
  let (r, s1) := choiceDraw allRanges s
  let (lat, s2) := uniformDraw r.1.latitude r.2.latitude s1
  let (lon, s3) := uniformDraw r.1.longitude r.2.longitude s2
  (⟨lat, lon⟩, s3)

/-- One step of the vehicle list comprehension: the capacity draw and the
state it leaves behind. -/
def vehicleCapDraw (props : _DemoDataProperties) (s : Nat) : Int × Nat :=
  randrange props.min_vehicle_capacity (props.max_vehicle_capacity + 1) s

/-- The vehicle built at index `i`: the drawn capacity, fixed warehouse
home, departure on `today + 1` at the start time. -/
def vehicleHead (props : _DemoDataProperties) (today : Nat) (i : Nat)
    (s : Nat) : Vehicle where
  id := toString i
  capacity := (vehicleCapDraw props s).1
  home_location := WAREHOUSE_LOCATION
  departure_time := ⟨today + 1, props.vehicle_start_time⟩

/-- The vehicle list comprehension: for each index one capacity draw.
`i` is the next id, `fuel` the remaining count. -/
def genVehicles (props : _DemoDataProperties) (today : Nat) :
    Nat → Nat → Nat → List Vehicle × Nat
  | _, 0, s => ([], s)
  | i, fuel + 1, s =>
    let rest := genVehicles props today (i + 1) fuel (vehicleCapDraw props s).2
    (vehicleHead props today i s :: rest.1, rest.2)

/-- The intermediate states of one visit iteration: after the name draw,
the location, the demand draw, the coin, and the duration draw. -/
def visitS1 (s : Nat) : Nat := (nameDraw s).2

def visitS2 (allRanges : List (Location × Location)) (s : Nat) : Nat :=
  (randomLocation allRanges (visitS1 s)).2

def visitS3 (props : _DemoDataProperties)
    (allRanges : List (Location × Location)) (s : Nat) : Nat :=
  (randrange props.min_demand (props.max_demand + 1) (visitS2 allRanges s)).2

def visitS4 (props : _DemoDataProperties)
    (allRanges : List (Location × Location)) (s : Nat) : Nat :=
  (randfloat (visitS3 props allRanges s)).2

def visitS5 (props : _DemoDataProperties)
    (allRanges : List (Location × Location)) (s : Nat) : Nat :=
  (valuesDraw SERVICE_DURATION_MINUTES (visitS4 props allRanges s)).2

/-- The `morning_window` coin: `random.random() > 0.5`, drawn after the
demand. -/
def visitMorning (props : _DemoDataProperties)
    (allRanges : List (Location × Location)) (s : Nat) : Bool :=
  decide ((1 : Rat) / 2 < (randfloat (visitS3 props allRanges s)).1)

/-- The service-duration draw of one visit iteration. -/
def visitDurDraw (props : _DemoDataProperties)
    (allRanges : List (Location × Location)) (s : Nat) : Nat :=
  (valuesDraw SERVICE_DURATION_MINUTES (visitS4 props allRanges s)).1

/-- The visit built at index `i`: draws in source argument order — name,
location, demand, the morning coin, service duration; both window
endpoints use the same coin and land on `today + 1`. -/
def visitHead (props : _DemoDataProperties) (today : Nat)
    (allRanges : List (Location × Location)) (i : Nat) (s : Nat) :
    Visit where
  id := toString i
  name := (nameDraw s).1
  location := (randomLocation allRanges (visitS1 s)).1
  demand := (randrange props.min_demand (props.max_demand + 1)
    (visitS2 allRanges s)).1
  min_start_time := ⟨today + 1,
    if visitMorning props allRanges s then MORNING_WINDOW_START
    else AFTERNOON_WINDOW_START⟩
  max_end_time := ⟨today + 1,
    if visitMorning props allRanges s then MORNING_WINDOW_END
    else AFTERNOON_WINDOW_END⟩
  service_duration := visitDurDraw props allRanges s

/-- The visit list comprehension. -/
def genVisits (props : _DemoDataProperties) (today : Nat)
    (allRanges : List (Location × Location)) :
    Nat → Nat → Nat → List Visit × Nat
  | _, 0, s => ([], s)
  | i, fuel + 1, s =>
    let rest := genVisits props today allRanges (i + 1) fuel
      (visitS5 props allRanges s)
    (visitHead props today allRanges i s :: rest.1, rest.2)

/-- The full route plan returned by the generator. -/
structure VehicleRoutePlan where
  name : String
  south_west_corner : Location
  north_east_corner : Location
  vehicles : List Vehicle
  visits : List Visit
deriving Repr

/-- `min(..., key=lambda loc: (loc.latitude, loc.longitude))` over a
non-empty list (first minimum wins, as in Python). -/
def minByLatLon : List Location → Location
  | [] => default
  | x :: xs => xs.foldl (fun acc l =>
      if l.latitude < acc.latitude ∨
         (l.latitude = acc.latitude ∧ l.longitude < acc.longitude)
      then l else acc) x

/-- `max(..., key=...)` analogously (first maximum wins). -/
def maxByLatLon : List Location → Location
  | [] => default
  | x :: xs => xs.foldl (fun acc l =>
      if acc.latitude < l.latitude ∨
         (acc.latitude = l.latitude ∧ acc.longitude < l.longitude)
      then l else acc) x

/-- `generate_demo_data` for a named dataset: seed the PRNG from the
dataset, build the catalogue rectangle list, generate vehicles then
visits, and assemble the plan. `date.today()` is impure in the source and
becomes the explicit `today` parameter (a day index). -/
def generate_demo_data (props : _DemoDataProperties) (today : Nat) :
    VehicleRoutePlan :=
  let s0 := rngOfSeed props.seed
  let allRanges := demoDataCatalogue.map
    (fun d => (d.south_west_corner, d.north_east_corner))
  let (vehicles, s1) := genVehicles props today 0 props.vehicle_count.toNat s0
  let (visits, _) := genVisits props today allRanges 0 props.visit_count.toNat s1
  { name := "demo",
    south_west_corner := minByLatLon (demoDataCatalogue.map (·.south_west_corner)),
    north_east_corner := maxByLatLon (demoDataCatalogue.map (·.north_east_corner)),
    vehicles := vehicles,
    visits := visits }

/-- `tomorrow_at(local_time)` = `datetime.combine(date.today(), local_time)`:
despite the name, the date used is `today`, not `today + 1`. -/
def tomorrow_at (today : Nat) (local_time : Nat) : DateTime :=
  ⟨today, local_time⟩

/-- A binder-free conjunction of a predicate over a list. -/
def listAll (p : α → Prop) : List α → Prop
  | [] => True
  | x :: xs => p x ∧ listAll p xs

/-- Membership within one of the catalogue rectangles. -/
def inRect (sw ne loc : Location) : Prop :=
  sw.latitude ≤ loc.latitude ∧ loc.latitude ≤ ne.latitude ∧
  sw.longitude ≤ loc.longitude ∧ loc.longitude ≤ ne.longitude

/-! ## Helper lemmas -/

theorem listAll_imp {p q : α → Prop} (h : ∀ x, p x → q x) :
    ∀ {l : List α}, listAll p l → listAll q l
  | [], _ => trivial
  | _ :: _, ⟨hx, hxs⟩ => ⟨h _ hx, listAll_imp h hxs⟩

theorem listAll_and {p q : α → Prop} :
    ∀ {l : List α}, listAll p l → listAll q l → listAll (fun x => p x ∧ q x) l
  | [], _, _ => trivial
  | _ :: _, ⟨hx, hxs⟩, ⟨hy, hys⟩ => ⟨⟨hx, hy⟩, listAll_and hxs hys⟩

theorem DateTime.toMinutes_addMinutes (d : DateTime) (m : Nat) :
    (d.addMinutes m).toMinutes = d.toMinutes + m := by
  unfold DateTime.addMinutes DateTime.toMinutes
  simp only
  omega

theorem scoreSum_const_soft (w : Int) :
    ∀ l : List Vehicle,
      scoreSum (l.map (fun _ => penalizeBy (HardSoftScore.of 0 w) 1)) =
        ⟨0, w * l.length⟩
  | [] => by simp [scoreSum]
  | x :: xs => by
    have ih := scoreSum_const_soft w xs
    simp only [List.map, scoreSum, List.foldr] at ih ⊢
    rw [ih]
    show HardSoftScore.add _ _ = _
    unfold HardSoftScore.add penalizeBy HardSoftScore.of
    simp only [List.length_cons, HardSoftScore.mk.injEq]
    constructor
    · ring
    · push_cast; ring

theorem minimize_vehicle_count_total_eq (vs : List Vehicle) :
    minimize_vehicle_count_total vs =
      ⟨0, 20 * ((vs.filter (fun v => 0 < v.visits.length)).length : Int)⟩ := by
  unfold minimize_vehicle_count_total
  exact scoreSum_const_soft 20 _

/-! ## Witness fixtures: concrete entities used to instantiate the
hypotheses of the claim theorems. -/

/-- A visit with the given id and demand (other fields inert). -/
def demandVisit (n : String) (d : Int) : Visit where
  id := n
  name := n
  location := default
  demand := d
  min_start_time := ⟨1, 480⟩
  max_end_time := ⟨1, 720⟩
  service_duration := 10

/-- A capacity-10 vehicle carrying three demand-4 visits. -/
def capVehicle : Vehicle where
  id := "0"
  capacity := 10
  home_location := default
  departure_time := ⟨1, 450⟩
  visits := [demandVisit "a" 4, demandVisit "b" 4, demandVisit "c" 4]

/-- An empty vehicle with the given id and capacity. -/
def bareVehicle (n : String) (c : Int) : Vehicle where
  id := n
  capacity := c
  home_location := default
  departure_time := ⟨1, 450⟩

/-- A vehicle with one visit, used for driving-time and count fixtures. -/
def loadedVehicle (n : String) : Vehicle where
  id := n
  capacity := 10
  home_location := default
  departure_time := ⟨1, 450⟩
  visits := [demandVisit (n ++ "v") 1]

/-- Five vehicles of which exactly three carry at least one visit. -/
def fiveVehicles : List Vehicle :=
  [loadedVehicle "0", bareVehicle "1" 10, loadedVehicle "2",
   bareVehicle "3" 10, loadedVehicle "4"]

/-- A visit whose service finishes 7 minutes after its max end time:
arrival 700, window start 480, duration 27 → finish 727 vs end 720. -/
def lateVisit : Visit where
  id := "v"
  name := "v"
  location := default
  demand := 1
  min_start_time := ⟨1, 480⟩
  max_end_time := ⟨1, 720⟩
  service_duration := 27
  arrival_time := some ⟨1, 700⟩

/-- A constant driving-time function of 20000 seconds per leg. -/
def drvConst : Location → Location → Nat := fun _ _ => 20000

/-! ## Claim theorems -/

/-- C1: the `vehicleCapacity` constraint penalizes a Vehicle on the hard
tier by `total demand - capacity` exactly when total demand exceeds
capacity, contributes zero when total demand ≤ capacity, and a capacity-10
vehicle with visit demands `[4, 4, 4]` yields hard penalty `2` (scaled by
hard weight 1) and soft penalty `0`. -/
theorem vehicle_capacity_correct (v : Vehicle) :
    (v.capacity < v.calculate_total_demand →
      vehicle_capacity v = ⟨v.calculate_total_demand - v.capacity, 0⟩) ∧
    (v.calculate_total_demand ≤ v.capacity → vehicle_capacity v = ⟨0, 0⟩) ∧
    (v.capacity = 10 → v.visits.map Visit.demand = [4, 4, 4] →
      vehicle_capacity v = ⟨2, 0⟩) := by
  refine ⟨fun h => ?_, fun h => ?_, fun hcap hmap => ?_⟩
  · simp [vehicle_capacity, h, penalizeBy, HardSoftScore.of]
  · rw [vehicle_capacity, if_neg (not_lt.2 h)]
  · have hd : v.calculate_total_demand = 12 := by
      unfold Vehicle.calculate_total_demand
      rw [hmap]; rfl
    simp [vehicle_capacity, hd, hcap, penalizeBy, HardSoftScore.of]

/-- Witness for C1 at the concrete capacity-10 vehicle with demands
`[4, 4, 4]`. -/
theorem vehicle_capacity_witness :
    capVehicle.capacity = 10 ∧
    capVehicle.visits.map Visit.demand = [4, 4, 4] ∧
    vehicle_capacity capVehicle = ⟨2, 0⟩ :=
  ⟨by decide, by decide,
    (vehicle_capacity_correct capVehicle).2.2 (by decide) (by decide)⟩

/-- C2: the `serviceFinishedAfterMaxEndTime` constraint penalizes a Visit
on the hard tier exactly when its computed service-finish time is later
than its max end time, with magnitude the finish delay in whole minutes;
finishing 7 minutes late yields penalty `7`, finishing at or before the
max end time yields `0`. -/
theorem service_finished_after_max_end_time_correct (v : Visit)
    (f : DateTime) (hf : v.service_finish_time = some f) :
    (v.max_end_time.toMinutes < f.toMinutes →
      service_finished_after_max_end_time v =
        ⟨(f.toMinutes : Int) - (v.max_end_time.toMinutes : Int), 0⟩) ∧
    (f.toMinutes ≤ v.max_end_time.toMinutes →
      service_finished_after_max_end_time v = ⟨0, 0⟩) ∧
    ((f.toMinutes : Int) = (v.max_end_time.toMinutes : Int) + 7 →
      service_finished_after_max_end_time v = ⟨7, 0⟩) := by
  refine ⟨fun h => ?_, fun h => ?_, fun h => ?_⟩
  · simp [service_finished_after_max_end_time,
      Visit.is_service_finished_after_max_end_time,
      Visit.service_finished_delay_in_minutes, hf, h, penalizeBy,
      HardSoftScore.of]
  · simp [service_finished_after_max_end_time,
      Visit.is_service_finished_after_max_end_time, hf, not_lt.2 h]
  · have hlt : v.max_end_time.toMinutes < f.toMinutes := by omega
    simp [service_finished_after_max_end_time,
      Visit.is_service_finished_after_max_end_time,
      Visit.service_finished_delay_in_minutes, hf, hlt, penalizeBy,
      HardSoftScore.of]
    omega

/-- Witness for C2 at a concrete visit finishing at minute 727 against a
max end time of minute 720 (7 minutes late). -/
theorem service_finished_after_max_end_time_witness :
    lateVisit.service_finish_time = some ⟨1, 727⟩ ∧
    (((⟨1, 727⟩ : DateTime).toMinutes : Int) =
      (lateVisit.max_end_time.toMinutes : Int) + 7) ∧
    service_finished_after_max_end_time lateVisit = ⟨7, 0⟩ :=
  ⟨by decide, by decide,
    (service_finished_after_max_end_time_correct lateVisit ⟨1, 727⟩
      (by decide)).2.2 (by decide)⟩

/-- C3: the `minimizeVehicleCount` constraint charges every vehicle with a
non-empty visit list a flat soft amount `20` (independent of its load), an
empty vehicle contributes nothing, and a plan of 5 vehicles of which
exactly 3 are used contributes `3 * 20` on the soft tier. -/
theorem minimize_vehicle_count_correct :
    (∀ v : Vehicle, v.visits ≠ [] → minimize_vehicle_count v = ⟨0, 20⟩) ∧
    (∀ v : Vehicle, v.visits = [] → minimize_vehicle_count v = ⟨0, 0⟩) ∧
    (∀ vehicles : List Vehicle, vehicles.length = 5 →
      (vehicles.filter (fun v => 0 < v.visits.length)).length = 3 →
      minimize_vehicle_count_total vehicles = ⟨0, 3 * 20⟩) := by
  refine ⟨fun v h => ?_, fun v h => ?_, fun vehicles _ h3 => ?_⟩
  · simp [minimize_vehicle_count, List.length_pos.2 h, penalizeBy,
      HardSoftScore.of]
  · simp [minimize_vehicle_count, h]
  · rw [minimize_vehicle_count_total_eq, h3]
    rfl

/-- Witness for C3 at a concrete plan of 5 vehicles, 3 of them used. -/
theorem minimize_vehicle_count_witness :
    (loadedVehicle "0").visits ≠ [] ∧
    (bareVehicle "1" 10).visits = [] ∧
    fiveVehicles.length = 5 ∧
    (fiveVehicles.filter (fun v => 0 < v.visits.length)).length = 3 ∧
    minimize_vehicle_count (loadedVehicle "0") = ⟨0, 20⟩ ∧
    minimize_vehicle_count (bareVehicle "1" 10) = ⟨0, 0⟩ ∧
    minimize_vehicle_count_total fiveVehicles = ⟨0, 3 * 20⟩ :=
  ⟨by decide, by decide, by decide, by decide,
    minimize_vehicle_count_correct.1 (loadedVehicle "0") (by decide),
    minimize_vehicle_count_correct.2.1 (bareVehicle "1" 10) (by decide),
    minimize_vehicle_count_correct.2.2 fiveVehicles (by decide) (by decide)⟩

/-- C4: the `limitDrivingTime` constraint penalizes a Vehicle on the hard
tier by the seconds over the ceiling exactly when total driving time
exceeds `DRIVING_TIME_LIMIT_SECONDS = 10800`, and contributes zero at or
below the ceiling. -/
theorem limit_driving_time_correct (drv : Location → Location → Nat)
    (v : Vehicle) :
    DRIVING_TIME_LIMIT_SECONDS = 10800 ∧
    (DRIVING_TIME_LIMIT_SECONDS < v.total_driving_time_seconds drv →
      limit_driving_time drv v =
        ⟨(v.total_driving_time_seconds drv : Int) - 10800, 0⟩) ∧
    (v.total_driving_time_seconds drv ≤ DRIVING_TIME_LIMIT_SECONDS →
      limit_driving_time drv v = ⟨0, 0⟩) := by
  refine ⟨rfl, fun h => ?_, fun h => ?_⟩
  · rw [limit_driving_time, if_pos h]
    simp [penalizeBy, HardSoftScore.of, DRIVING_TIME_LIMIT_SECONDS]
  · rw [limit_driving_time, if_neg (not_lt.2 h)]

/-- Witness for C4 at a vehicle whose single-leg tour takes 20000 seconds
(over the 10800-second ceiling by 9200). -/
theorem limit_driving_time_witness :
    DRIVING_TIME_LIMIT_SECONDS <
      (loadedVehicle "0").total_driving_time_seconds drvConst ∧
    limit_driving_time drvConst (loadedVehicle "0") =
      ⟨((loadedVehicle "0").total_driving_time_seconds drvConst : Int) - 10800,
       0⟩ :=
  ⟨by decide,
    (limit_driving_time_correct drvConst (loadedVehicle "0")).2.1 (by decide)⟩

/-- C5: `define_constraints` always registers the vehicle-capacity and
minimize-travel-time constraints, and registers each flag-guarded
constraint exactly when its flag is `true`; the shipped list is the
flag-driven list at the source's flag values. -/
theorem define_constraints_correct (cfg : Config) :
    VEHICLE_CAPACITY ∈ defineConstraintsFlags cfg ∧
    MINIMIZE_TRAVEL_TIME ∈ defineConstraintsFlags cfg ∧
    (SERVICE_FINISHED_AFTER_MAX_END_TIME ∈ defineConstraintsFlags cfg ↔
      cfg.enable_time_window_constraints = true) ∧
    (LIMIT_DRIVING_TIME ∈ defineConstraintsFlags cfg ↔
      cfg.enable_driving_time_limit = true) ∧
    (BALANCE_LOAD ∈ defineConstraintsFlags cfg ↔
      cfg.enable_load_balancing = true) ∧
    (MINIMIZE_MAX_LOAD ∈ defineConstraintsFlags cfg ↔
      cfg.enable_minimize_max_load = true) ∧
    (ENCOURAGE_FULL_UTILIZATION ∈ defineConstraintsFlags cfg ↔
      cfg.enable_encourage_full_utilization = true) ∧
    (MINIMIZE_VEHICLE_COUNT ∈ defineConstraintsFlags cfg ↔
      cfg.enable_minimize_vehicle_count = true) ∧
    define_constraints = defineConstraintsFlags sourceConfig := by
  obtain ⟨a, b, c, d, e, f⟩ := cfg
  cases a <;> cases b <;> cases c <;> cases d <;> cases e <;> cases f <;>
    decide

/-- All ten `__post_init__` conditions, stated positively. -/
def validProps (p : _DemoDataProperties) : Prop :=
  1 ≤ p.min_demand ∧ 1 ≤ p.max_demand ∧ p.min_demand < p.max_demand ∧
  1 ≤ p.min_vehicle_capacity ∧ 1 ≤ p.max_vehicle_capacity ∧
  p.min_vehicle_capacity < p.max_vehicle_capacity ∧
  1 ≤ p.visit_count ∧ 1 ≤ p.vehicle_count ∧
  p.south_west_corner.latitude < p.north_east_corner.latitude ∧
  p.south_west_corner.longitude < p.north_east_corner.longitude

theorem post_init_check_ok_iff (p : _DemoDataProperties) :
    post_init_check p = .ok () ↔ validProps p := by
  constructor
  · intro h
    unfold post_init_check at h
    split_ifs at h with h1 h2 h3 h4 h5 h6 h7 h8 h9 h10
    have c1 : 1 ≤ p.min_demand := by omega
    have c2 : 1 ≤ p.max_demand := by omega
    have c3 : p.min_demand < p.max_demand := by omega
    have c4 : 1 ≤ p.min_vehicle_capacity := by omega
    have c5 : 1 ≤ p.max_vehicle_capacity := by omega
    have c6 : p.min_vehicle_capacity < p.max_vehicle_capacity := by omega
    have c7 : 1 ≤ p.visit_count := by omega
    have c8 : 1 ≤ p.vehicle_count := by omega
    exact ⟨c1, c2, c3, c4, c5, c6, c7, c8, not_le.1 h9, not_le.1 h10⟩
  · intro hv
    obtain ⟨v1, v2, v3, v4, v5, v6, v7, v8, v9, v10⟩ := hv
    unfold post_init_check
    split_ifs with h1 h2 h3 h4 h5 h6 h7 h8 h9 h10
    all_goals first
      | rfl
      | (exfalso; omega)
      | exact absurd v9 (not_lt.2 h9)
      | exact absurd v10 (not_lt.2 h10)

/-- A dataset definition with `min_demand = 5 >= max_demand = 3` and
otherwise simple valid fields. -/
def badProps : _DemoDataProperties where
  seed := 0
  visit_count := 10
  vehicle_count := 2
  vehicle_start_time := 450
  min_demand := 5
  max_demand := 3
  min_vehicle_capacity := 10
  max_vehicle_capacity := 15
  south_west_corner := ⟨0, 0⟩
  north_east_corner := ⟨1, 1⟩

/-- C6: dataset validation — construction succeeds exactly when every
range, count and corner condition holds; with positive demands,
`min_demand >= max_demand` raises the `ValueError` naming `maxDemand` and
`minDemand` with their values; and any violation makes construction yield
an error, so no `_DemoDataProperties` (hence no RoutePlan) is produced. -/
theorem demo_data_validation_correct (p : _DemoDataProperties) :
    (post_init_check p = .ok () ↔ validProps p) ∧
    (1 ≤ p.min_demand → 1 ≤ p.max_demand → p.max_demand ≤ p.min_demand →
      post_init_check p = .error
        s!"maxDemand ({p.max_demand}) must be greater than minDemand ({p.min_demand}).") ∧
    (¬ validProps p → ∀ q, mkDemoDataProperties p ≠ .ok q) := by
  refine ⟨post_init_check_ok_iff p, fun h1 h2 h3 => ?_, fun hnv q hq => ?_⟩
  · unfold post_init_check
    have n1 : ¬(p.min_demand < 1) := by omega
    have n2 : ¬(p.max_demand < 1) := by omega
    rw [if_neg n1, if_neg n2, if_pos h3]
  · unfold mkDemoDataProperties at hq
    cases heq : post_init_check p with
    | error e => rw [heq] at hq; exact Except.noConfusion hq
    | ok u =>
      cases u
      exact hnv ((post_init_check_ok_iff p).1 heq)

/-- Witness for C6 at `badProps` (`min_demand = 5 >= max_demand = 3`). -/
theorem demo_data_validation_witness :
    1 ≤ badProps.min_demand ∧ 1 ≤ badProps.max_demand ∧
    badProps.max_demand ≤ badProps.min_demand ∧
    post_init_check badProps =
      .error "maxDemand (3) must be greater than minDemand (5)." :=
  ⟨by decide, by decide, by decide,
    ((demo_data_validation_correct badProps).2.1 (by decide) (by decide)
      (by decide)).trans (by rfl)⟩

/-! ## Draw bounds for the modelled PRNG -/

theorem rngNext_lt (s : Nat) : rngNext s < 2147483648 :=
  Nat.mod_lt _ (by norm_num)

attribute [irreducible] rngNext

theorem randrange_bounds (a b : Int) (s : Nat) (h : a < b) :
    a ≤ (randrange a b s).1 ∧ (randrange a b s).1 < b := by
  have hval : (randrange a b s).1 =
      a + ((rngNext s % (b - a).toNat : Nat) : Int) := rfl
  have hn : 0 < (b - a).toNat := by omega
  have hk : rngNext s % (b - a).toNat < (b - a).toNat := Nat.mod_lt _ hn
  rw [hval]
  omega

theorem randfloat_bounds (s : Nat) :
    0 ≤ (randfloat s).1 ∧ (randfloat s).1 < 1 := by
  have hval : (randfloat s).1 = ((rngNext s : Nat) : Rat) / 2147483648 := rfl
  rw [hval]
  constructor
  · positivity
  · rw [div_lt_one (by norm_num)]
    exact_mod_cast rngNext_lt s

theorem uniformDraw_bounds (a b : Rat) (s : Nat) (h : a ≤ b) :
    a ≤ (uniformDraw a b s).1 ∧ (uniformDraw a b s).1 ≤ b := by
  have hval : (uniformDraw a b s).1 = a + (b - a) * (randfloat s).1 := rfl
  obtain ⟨h0, h1⟩ := randfloat_bounds s
  rw [hval]
  constructor
  · nlinarith
  · nlinarith

theorem getD_mem {α : Type _} (d : α) :
    ∀ (xs : List α) (k : Nat), k < xs.length → xs.getD k d ∈ xs
  | [], _, h => absurd h (by simp)
  | x :: xs, 0, _ => List.mem_cons_self x xs
  | x :: xs, k + 1, h => by
    have hm := getD_mem d xs k (by simpa using h)
    simpa [List.getD] using List.mem_cons_of_mem x hm

theorem choiceDraw_mem {α : Type _} [Inhabited α] (xs : List α) (s : Nat)
    (h : xs ≠ []) : (choiceDraw xs s).1 ∈ xs := by
  have hval : (choiceDraw xs s).1 =
      xs.getD (rngNext s % xs.length) default := rfl
  rw [hval]
  exact getD_mem _ xs _ (Nat.mod_lt _ (List.length_pos.2 h))

theorem valuesDraw_mem {α : Type _} [Inhabited α] (xs : List α) (s : Nat)
    (h : xs ≠ []) : (valuesDraw xs s).1 ∈ xs := by
  have hval : (valuesDraw xs s).1 =
      xs.getD (randint 0 ((xs.length : Int) - 1) s).1.toNat default := rfl
  have hlen : (0 : Int) < (xs.length : Int) - 1 + 1 := by
    have := List.length_pos.2 h
    omega
  obtain ⟨hlo, hhi⟩ := randrange_bounds 0 ((xs.length : Int) - 1 + 1) s hlen
  rw [hval]
  exact getD_mem _ xs _ (by unfold randint; omega)

/-! ## Generator structure lemmas -/

theorem randomLocation_spec (allRanges : List (Location × Location))
    (s : Nat) (hne : allRanges ≠ [])
    (hrect : ∀ r ∈ allRanges,
      r.1.latitude ≤ r.2.latitude ∧ r.1.longitude ≤ r.2.longitude) :
    ∃ r, r ∈ allRanges ∧ inRect r.1 r.2 (randomLocation allRanges s).1 := by
  have hr : (choiceDraw allRanges s).1 ∈ allRanges := choiceDraw_mem _ _ hne
  obtain ⟨hla, hlb⟩ := hrect _ hr
  have b1 := uniformDraw_bounds (choiceDraw allRanges s).1.1.latitude
    (choiceDraw allRanges s).1.2.latitude (choiceDraw allRanges s).2 hla
  have b2 := uniformDraw_bounds (choiceDraw allRanges s).1.1.longitude
    (choiceDraw allRanges s).1.2.longitude
    (uniformDraw (choiceDraw allRanges s).1.1.latitude
      (choiceDraw allRanges s).1.2.latitude (choiceDraw allRanges s).2).2 hlb
  exact ⟨(choiceDraw allRanges s).1, hr, b1.1, b1.2, b2.1, b2.2⟩

theorem genVehicles_spec (props : _DemoDataProperties) (today : Nat)
    (h : props.min_vehicle_capacity < props.max_vehicle_capacity + 1) :
    ∀ (fuel i s : Nat),
      (genVehicles props today i fuel s).1.length = fuel ∧
      listAll (fun v =>
        props.min_vehicle_capacity ≤ v.capacity ∧
        v.capacity ≤ props.max_vehicle_capacity ∧
        v.home_location = WAREHOUSE_LOCATION ∧
        v.departure_time = ⟨today + 1, props.vehicle_start_time⟩)
        (genVehicles props today i fuel s).1
  | 0, _, _ => ⟨rfl, trivial⟩
  | n + 1, i, s => by
    obtain ⟨hlo, hhi⟩ := randrange_bounds props.min_vehicle_capacity
      (props.max_vehicle_capacity + 1) s h
    obtain ⟨ihl, iha⟩ := genVehicles_spec props today h n (i + 1)
      (vehicleCapDraw props s).2
    have hcons : (genVehicles props today i (n + 1) s).1 =
        vehicleHead props today i s ::
          (genVehicles props today (i + 1) n (vehicleCapDraw props s).2).1 :=
      rfl
    rw [hcons]
    refine ⟨by simp [ihl], ⟨hlo, ?_, rfl, rfl⟩, iha⟩
    show (vehicleCapDraw props s).1 ≤ props.max_vehicle_capacity
    unfold vehicleCapDraw
    omega

/-- The two possible window assignments, one per value of the coin. -/
theorem window_disj (t : Nat) (b : Bool) :
    ((⟨t + 1, if b then MORNING_WINDOW_START else AFTERNOON_WINDOW_START⟩ :
        DateTime) = ⟨t + 1, MORNING_WINDOW_START⟩ ∧
      (⟨t + 1, if b then MORNING_WINDOW_END else AFTERNOON_WINDOW_END⟩ :
        DateTime) = ⟨t + 1, MORNING_WINDOW_END⟩) ∨
    ((⟨t + 1, if b then MORNING_WINDOW_START else AFTERNOON_WINDOW_START⟩ :
        DateTime) = ⟨t + 1, AFTERNOON_WINDOW_START⟩ ∧
      (⟨t + 1, if b then MORNING_WINDOW_END else AFTERNOON_WINDOW_END⟩ :
        DateTime) = ⟨t + 1, AFTERNOON_WINDOW_END⟩) := by
  cases b
  · exact Or.inr ⟨rfl, rfl⟩
  · exact Or.inl ⟨rfl, rfl⟩

/-- The window shape every generated visit satisfies. -/
def windowShape (today : Nat) (vi : Visit) : Prop :=
  (vi.min_start_time = ⟨today + 1, MORNING_WINDOW_START⟩ ∧
    vi.max_end_time = ⟨today + 1, MORNING_WINDOW_END⟩) ∨
  (vi.min_start_time = ⟨today + 1, AFTERNOON_WINDOW_START⟩ ∧
    vi.max_end_time = ⟨today + 1, AFTERNOON_WINDOW_END⟩)

theorem genVisits_windows (props : _DemoDataProperties) (today : Nat)
    (allRanges : List (Location × Location)) :
    ∀ (fuel i s : Nat),
      listAll (windowShape today) (genVisits props today allRanges i fuel s).1
  | 0, _, _ => trivial
  | n + 1, i, s => by
    have hcons : (genVisits props today allRanges i (n + 1) s).1 =
        visitHead props today allRanges i s ::
          (genVisits props today allRanges (i + 1) n
            (visitS5 props allRanges s)).1 := rfl
    rw [hcons]
    exact ⟨window_disj today (visitMorning props allRanges s),
      genVisits_windows props today allRanges n (i + 1)
        (visitS5 props allRanges s)⟩

theorem windowShape_lt {today : Nat} {vi : Visit} (h : windowShape today vi) :
    vi.min_start_time.toMinutes < vi.max_end_time.toMinutes := by
  rcases h with ⟨h1, h2⟩ | ⟨h1, h2⟩ <;> rw [h1, h2] <;>
    simp [DateTime.toMinutes, MORNING_WINDOW_START, MORNING_WINDOW_END,
      AFTERNOON_WINDOW_START, AFTERNOON_WINDOW_END]

theorem genVisits_spec (props : _DemoDataProperties) (today : Nat)
    (allRanges : List (Location × Location))
    (hd : props.min_demand < props.max_demand + 1)
    (hne : allRanges ≠ [])
    (hrect : ∀ r ∈ allRanges,
      r.1.latitude ≤ r.2.latitude ∧ r.1.longitude ≤ r.2.longitude) :
    ∀ (fuel i s : Nat),
      (genVisits props today allRanges i fuel s).1.length = fuel ∧
      listAll (fun vi =>
        props.min_demand ≤ vi.demand ∧ vi.demand ≤ props.max_demand ∧
        vi.service_duration ∈ SERVICE_DURATION_MINUTES ∧
        ∃ r, r ∈ allRanges ∧ inRect r.1 r.2 vi.location)
        (genVisits props today allRanges i fuel s).1
  | 0, _, _ => ⟨rfl, trivial⟩
  | n + 1, i, s => by
    obtain ⟨hdlo, hdhi⟩ := randrange_bounds props.min_demand
      (props.max_demand + 1) (visitS2 allRanges s) hd
    have hdur : visitDurDraw props allRanges s ∈ SERVICE_DURATION_MINUTES :=
      valuesDraw_mem SERVICE_DURATION_MINUTES
        (visitS4 props allRanges s) (by decide)
    have hloc := randomLocation_spec allRanges (visitS1 s) hne hrect
    obtain ⟨ihl, iha⟩ := genVisits_spec props today allRanges hd hne hrect n
      (i + 1) (visitS5 props allRanges s)
    have hcons : (genVisits props today allRanges i (n + 1) s).1 =
        visitHead props today allRanges i s ::
          (genVisits props today allRanges (i + 1) n
            (visitS5 props allRanges s)).1 := rfl
    rw [hcons]
    refine ⟨by simp [ihl], ⟨hdlo, ?_, hdur, hloc⟩, iha⟩
    show (randrange props.min_demand (props.max_demand + 1)
      (visitS2 allRanges s)).1 ≤ props.max_demand
    omega

theorem genVehicles_departure (props : _DemoDataProperties) (today : Nat) :
    ∀ (fuel i s : Nat),
      listAll (fun v =>
        v.departure_time = ⟨today + 1, props.vehicle_start_time⟩)
        (genVehicles props today i fuel s).1
  | 0, _, _ => trivial
  | n + 1, i, s => by
    have hcons : (genVehicles props today i (n + 1) s).1 =
        vehicleHead props today i s ::
          (genVehicles props today (i + 1) n (vehicleCapDraw props s).2).1 :=
      rfl
    rw [hcons]
    exact ⟨rfl, genVehicles_departure props today n (i + 1) _⟩

theorem windowShape_day {today : Nat} {vi : Visit} (h : windowShape today vi) :
    vi.min_start_time.day = today + 1 ∧ vi.max_end_time.day = today + 1 := by
  rcases h with ⟨h1, h2⟩ | ⟨h1, h2⟩ <;> rw [h1, h2] <;> exact ⟨rfl, rfl⟩

/-- The catalogue rectangles are well-formed: each north-east corner is
weakly north and east of its south-west corner. -/
theorem catalogueRect :
    ∀ r ∈ demoDataCatalogue.map
      (fun d => (d.south_west_corner, d.north_east_corner)),
      r.1.latitude ≤ r.2.latitude ∧ r.1.longitude ≤ r.2.longitude := by
  intro r hr
  simp only [demoDataCatalogue, List.map, List.mem_singleton] at hr
  subst hr
  constructor <;> norm_num [NEW_LOCATION]

/-- A small valid dataset definition with integer corners, used to
instantiate generator theorems. -/
def simpleProps : _DemoDataProperties where
  seed := 0
  visit_count := 3
  vehicle_count := 2
  vehicle_start_time := 450
  min_demand := 1
  max_demand := 2
  min_vehicle_capacity := 3
  max_vehicle_capacity := 5
  south_west_corner := ⟨0, 0⟩
  north_east_corner := ⟨1, 1⟩

/-- C7: `generate_demo_data` is deterministic — it is a pure function of
the dataset properties (which fix the seed, all randomness being drawn
from the PRNG seeded with `props.seed`) and the current date, so two
invocations with the same named dataset on the same date produce equal
RoutePlans (same capacities, locations, names, demands, windows and
durations, in the same order). -/
theorem generate_demo_data_deterministic (p q : _DemoDataProperties)
    (t u : Nat) (hpq : p = q) (htu : t = u) :
    generate_demo_data p t = generate_demo_data q u := by
  rw [hpq, htu]

/-- Witness for C7: two invocations on the `NEW_LOCATION` dataset. -/
theorem generate_demo_data_deterministic_witness :
    NEW_LOCATION = NEW_LOCATION ∧ (3 : Nat) = 3 ∧
    generate_demo_data NEW_LOCATION 3 = generate_demo_data NEW_LOCATION 3 :=
  ⟨rfl, rfl,
    generate_demo_data_deterministic NEW_LOCATION NEW_LOCATION 3 3 rfl rfl⟩

/-- C8: for a validated dataset, the generated plan has exactly
`vehicle_count` vehicles and `visit_count` visits; every vehicle's
capacity lies in `[min_vehicle_capacity, max_vehicle_capacity]` and every
vehicle is homed at the warehouse; every visit's demand lies in
`[min_demand, max_demand]`, its service duration is one of 10/20/30/40
minutes, and its location lies in one of the catalogue rectangles. -/
theorem generate_demo_data_ranges (props : _DemoDataProperties)
    (today : Nat) (h : post_init_check props = .ok ()) :
    (generate_demo_data props today).vehicles.length =
      props.vehicle_count.toNat ∧
    (generate_demo_data props today).visits.length =
      props.visit_count.toNat ∧
    listAll (fun v =>
      props.min_vehicle_capacity ≤ v.capacity ∧
      v.capacity ≤ props.max_vehicle_capacity ∧
      v.home_location = WAREHOUSE_LOCATION)
      (generate_demo_data props today).vehicles ∧
    listAll (fun vi =>
      props.min_demand ≤ vi.demand ∧ vi.demand ≤ props.max_demand ∧
      vi.service_duration ∈ SERVICE_DURATION_MINUTES ∧
      ∃ p, p ∈ demoDataCatalogue ∧
        inRect p.south_west_corner p.north_east_corner vi.location)
      (generate_demo_data props today).visits := by
  obtain ⟨v1, v2, v3, v4, v5, v6, v7, v8, v9, v10⟩ :=
    (post_init_check_ok_iff props).1 h
  have hcapr : props.min_vehicle_capacity < props.max_vehicle_capacity + 1 :=
    by omega
  have hdemr : props.min_demand < props.max_demand + 1 := by omega
  set allR := demoDataCatalogue.map
    (fun d => (d.south_west_corner, d.north_east_corner)) with hallR
  have hne : allR ≠ [] := by simp [hallR, demoDataCatalogue]
  have hveh : (generate_demo_data props today).vehicles =
      (genVehicles props today 0 props.vehicle_count.toNat
        (rngOfSeed props.seed)).1 := rfl
  have hvis : (generate_demo_data props today).visits =
      (genVisits props today allR 0 props.visit_count.toNat
        (genVehicles props today 0 props.vehicle_count.toNat
          (rngOfSeed props.seed)).2).1 := rfl
  obtain ⟨hvl, hva⟩ := genVehicles_spec props today hcapr
    props.vehicle_count.toNat 0 (rngOfSeed props.seed)
  obtain ⟨hil, hia⟩ := genVisits_spec props today allR hdemr hne
    (hallR ▸ catalogueRect) props.visit_count.toNat 0
    (genVehicles props today 0 props.vehicle_count.toNat
      (rngOfSeed props.seed)).2
  refine ⟨by rw [hveh]; exact hvl, by rw [hvis]; exact hil, ?_, ?_⟩
  · rw [hveh]
    exact listAll_imp (fun v hv => ⟨hv.1, hv.2.1, hv.2.2.1⟩) hva
  · rw [hvis]
    refine listAll_imp (fun vi hv => ⟨hv.1, hv.2.1, hv.2.2.1, ?_⟩) hia
    obtain ⟨r, hrmem, hrin⟩ := hv.2.2.2
    rw [hallR] at hrmem
    obtain ⟨p, hp, rfl⟩ := List.mem_map.1 hrmem
    exact ⟨p, hp, hrin⟩

/-- Witness for C8 at the valid dataset `simpleProps`. -/
theorem generate_demo_data_ranges_witness :
    post_init_check simpleProps = .ok () ∧
    (generate_demo_data simpleProps 0).vehicles.length = 2 ∧
    (generate_demo_data simpleProps 0).visits.length = 3 :=
  ⟨by decide,
    (generate_demo_data_ranges simpleProps 0 (by decide)).1,
    (generate_demo_data_ranges simpleProps 0 (by decide)).2.1⟩

/-- C9: every generated visit's window is either the morning window
(08:00–12:00, minutes 480–720) or the afternoon window (13:00–18:00,
minutes 780–1080), both endpoints on the next-day date and drawn from the
same window, so minimum start time < maximum end time. -/
theorem generate_demo_data_windows (props : _DemoDataProperties)
    (today : Nat) :
    MORNING_WINDOW_START = 480 ∧ MORNING_WINDOW_END = 720 ∧
    AFTERNOON_WINDOW_START = 780 ∧ AFTERNOON_WINDOW_END = 1080 ∧
    listAll (fun vi => windowShape today vi ∧
      vi.min_start_time.toMinutes < vi.max_end_time.toMinutes)
      (generate_demo_data props today).visits := by
  refine ⟨rfl, rfl, rfl, rfl, ?_⟩
  have hvis : (generate_demo_data props today).visits =
      (genVisits props today
        (demoDataCatalogue.map
          (fun d => (d.south_west_corner, d.north_east_corner)))
        0 props.visit_count.toNat
        (genVehicles props today 0 props.vehicle_count.toNat
          (rngOfSeed props.seed)).2).1 := rfl
  rw [hvis]
  exact listAll_imp (fun vi h => ⟨h, windowShape_lt h⟩)
    (genVisits_windows props today _ props.visit_count.toNat 0 _)

/-- C10: `tomorrow_at(t)` combines `t` with the current day, not the
following day, even though generated vehicles' departure times and visit
windows are placed on `today + 1`. -/
theorem tomorrow_at_correct (today local_time : Nat)
    (props : _DemoDataProperties) :
    tomorrow_at today local_time = ⟨today, local_time⟩ ∧
    (tomorrow_at today local_time).day = today ∧
    listAll (fun v => v.departure_time.day = today + 1)
      (generate_demo_data props today).vehicles ∧
    listAll (fun vi => vi.min_start_time.day = today + 1 ∧
      vi.max_end_time.day = today + 1)
      (generate_demo_data props today).visits := by
  refine ⟨rfl, rfl, ?_, ?_⟩
  · have hveh : (generate_demo_data props today).vehicles =
        (genVehicles props today 0 props.vehicle_count.toNat
          (rngOfSeed props.seed)).1 := rfl
    rw [hveh]
    exact listAll_imp (fun v hv => by rw [hv])
      (genVehicles_departure props today props.vehicle_count.toNat 0
        (rngOfSeed props.seed))
  · have hvis : (generate_demo_data props today).visits =
        (genVisits props today
          (demoDataCatalogue.map
            (fun d => (d.south_west_corner, d.north_east_corner)))
          0 props.visit_count.toNat
          (genVehicles props today 0 props.vehicle_count.toNat
            (rngOfSeed props.seed)).2).1 := rfl
    rw [hvis]
    exact listAll_imp (fun vi h => windowShape_day h)
      (genVisits_windows props today _ props.visit_count.toNat 0 _)

end VehicleRouting
